import Mathlib

/-
Verification of the smart_devices firmware sketches.

Shallow embedding of two Arduino sketches:
  * the gas leak monitor ("gas leak monitor/src/main.cpp"), and
  * the smart switch ("smart switch/src/main.cpp").

Floats are modelled as rationals; an EEPROM float cell may additionally hold
a NaN, modelled by the EFloat type. Machine-unsigned subtraction used by the
debounce logic is modelled explicitly modulo 2^32. Hardware output pins are
modelled as boolean fields (true = HIGH). Display rendering, serial logging
and network transmission have no effect on program state and are omitted.
-/

namespace GasMonitor

/-- Value of a 4-byte float cell in EEPROM: either NaN or a real number
(modelled as a rational). -/
inductive EFloat where
  | nan : EFloat
  | val : ℚ → EFloat
deriving DecidableEq

/-- Menu system states, enum MenuState of the source (lines 63-70). -/
inductive MenuState where
  | MAIN_SCREEN
  | MENU_MAIN
  | SET_TEMP_THRESHOLD
  | SET_GAS_THRESHOLD
  | WIFI_SETTINGS
  | DEVICE_INFO
deriving DecidableEq

/-- EEPROM contents, restricted to the regions the sketch uses (addresses
ADDR_AP_PASS = 0, ADDR_STATION_SSID = 32, ADDR_STATION_PASS = 64,
ADDR_GAS_THRESHOLD = 128, ADDR_TEMP_THRESHOLD = 132, ADDR_AUTO_MODE = 136).
The three string regions are disjoint 32-byte windows modelled as
offset-to-byte maps; the two float cells and the mode byte are separate
typed cells, faithful because their addresses do not overlap the string
windows for in-range string lengths. -/
structure Eeprom where
  apPassR : Nat → Nat
  stationSSIDR : Nat → Nat
  stationPassR : Nat → Nat
  gasF : EFloat
  tempF : EFloat
  autoB : Nat

/-- Global mutable state of the gas monitor sketch (lines 42-91),
restricted to the variables the modelled functions read or write.
alarmPin and relayPin mirror digitalWrite on ALARM_PIN and RELAY_PIN. -/
structure GasState where
  temperature : ℚ
  humidity : ℚ
  gasLevel : ℚ
  alarmActive : Bool
  relayState : Bool
  autoMode : Bool
  gasThreshold : ℚ
  tempThreshold : ℚ
  alarmPin : Bool
  relayPin : Bool
  currentMenu : MenuState
  menuPosition : Int
  menuButtonState : Bool
  button2State : Bool
  button3State : Bool
  menuButtonLastState : Bool
  button2LastState : Bool
  button3LastState : Bool
  lastButtonDebounceTime : Nat
  apMode : Bool
  apPassword : List Nat
  stationSSID : List Nat
  stationPassword : List Nat
  eeprom : Eeprom

/-- checkAlarms (source lines 389-414): latch the alarm when a threshold is
exceeded and the alarm is not yet active; in auto mode also energise the
relay. The function never clears the alarm (comment at line 413). -/
def checkAlarms (s : GasState) : GasState :=
  let shouldAlarm : Bool :=
    if s.gasLevel > s.gasThreshold then true
    else if s.temperature > s.tempThreshold then true
    else false
  if shouldAlarm && !s.alarmActive then
    let s1 := { s with alarmActive := true, alarmPin := true }
    if s.autoMode then { s1 with relayState := true, relayPin := true } else s1
  else s

/-- Sensor inputs of one loop iteration (lines 249-259): the two DHT
readings, which may be NaN, and the raw gas ADC value. -/
structure Reading where
  newTemperature : EFloat
  newHumidity : EFloat
  gasRaw : ℚ

/-- Sensor-read part of loop (lines 249-259): temperature and humidity are
only updated when both readings are valid; the gas level is always taken. -/
def readSensors (r : Reading) (s : GasState) : GasState :=
  let s1 :=
    match r.newTemperature, r.newHumidity with
    | EFloat.val t, EFloat.val h => { s with temperature := t, humidity := h }
    | _, _ => s
  { s1 with gasLevel := r.gasRaw }

/-- One sensor-read/evaluate cycle of loop (lines 245-269): read the
sensors, then evaluate checkAlarms. updateLCD and sendSensorData only
render and transmit and change no state. -/
def cycle (r : Reading) (s : GasState) : GasState :=
  checkAlarms (readSensors r s)

/-- A whole sequence of sensor-read/evaluate cycles. -/
def runCycles (rs : List Reading) (s : GasState) : GasState :=
  rs.foldl (fun a r => cycle r a) s

/-- Commands understood by handleWebSocketMessage (lines 297-338); an
optional field is absent when the JSON document lacks the key. -/
inductive Cmd where
  | getStatus
  | setRelay (state : Option Bool)
  | setAutoMode (state : Option Bool)
  | setThresholds (gas temp : Option ℚ)
  | reset (alarm : Option Bool)
deriving DecidableEq

/-- Command dispatch of handleWebSocketMessage, WStype_TEXT branch
(lines 297-338). sendSensorData only transmits and is omitted. -/
def handleCommand (c : Cmd) (s : GasState) : GasState :=
  match c with
  | Cmd.getStatus => s
  | Cmd.setRelay st =>
      match st with
      | none => s
      | some b => { s with relayState := b, relayPin := b }
  | Cmd.setAutoMode st =>
      match st with
      | none => s
      | some b =>
          { s with autoMode := b
                 , eeprom := { s.eeprom with autoB := if b then 1 else 0 } }
  | Cmd.setThresholds g t =>
      let s1 :=
        match g with
        | none => s
        | some q =>
            { s with gasThreshold := q
                   , eeprom := { s.eeprom with gasF := EFloat.val q } }
      match t with
      | none => s1
      | some q =>
          { s1 with tempThreshold := q
                  , eeprom := { s1.eeprom with tempF := EFloat.val q } }
  | Cmd.reset al =>
      if al = some true then { s with alarmActive := false, alarmPin := false }
      else s

/-- HTTP POST /api/control handler (lines 195-222); each parameter is an
optional form value. The relay parameter is parsed by string comparison
(line 198); auto likewise (line 204); the thresholds arrive as floats. -/
def apiControl (relay auto : Option (List Nat)) (gasT tempT : Option ℚ)
    (s : GasState) : GasState :=
  let truthy : List Nat → Bool := fun v =>
    v = [49] || v = [116, 114, 117, 101] || v = [111, 110]
  let s1 :=
    match relay with
    | none => s
    | some v => { s with relayState := truthy v, relayPin := truthy v }
  let s2 :=
    match auto with
    | none => s1
    | some v =>
        { s1 with autoMode := truthy v
                , eeprom := { s1.eeprom with autoB := if truthy v then 1 else 0 } }
  let s3 :=
    match gasT with
    | none => s2
    | some q =>
        { s2 with gasThreshold := q
                , eeprom := { s2.eeprom with gasF := EFloat.val q } }
  match tempT with
  | none => s3
  | some q =>
      { s3 with tempThreshold := q
              , eeprom := { s3.eeprom with tempF := EFloat.val q } }

/-- Default AP password "12345678" as bytes (line 25). -/
def AP_PASSWORD_BYTES : List Nat := [49, 50, 51, 52, 53, 54, 55, 56]

/-- EEPROM byte-wise string write used by saveSettings (lines 418-433):
the bytes of the string followed by a null terminator; bytes beyond keep their
previous content. -/
def writeStr (r : Nat → Nat) (str : List Nat) : Nat → Nat :=
  fun i =>
    if i < str.length then str.getD i 0
    else if i = str.length then 0
    else r i

/-- EEPROM byte-wise string read used by loadSettings (lines 448-472):
up to 32 bytes, stopping at the first null. -/
def loadStr (r : Nat → Nat) : List Nat :=
  ((List.range 32).map r).takeWhile (fun c => c != 0)

/-- Gas-threshold load validation (lines 475-478): NaN or out of
[0, 4095] falls back to the default 500. -/
def validateGas : EFloat → ℚ
  | EFloat.nan => 500
  | EFloat.val q => if q < 0 ∨ q > 4095 then 500 else q

/-- Temperature-threshold load validation (lines 480-483): NaN or out of
[0, 100] falls back to the default 35. -/
def validateTemp : EFloat → ℚ
  | EFloat.nan => 35
  | EFloat.val q => if q < 0 ∨ q > 100 then 35 else q

/-- saveSettings (lines 416-444): write the three credential strings, the
two threshold floats and the auto-mode byte to EEPROM. -/
def saveSettings (s : GasState) : GasState :=
  { s with eeprom :=
      { apPassR := writeStr s.eeprom.apPassR s.apPassword
      , stationSSIDR := writeStr s.eeprom.stationSSIDR s.stationSSID
      , stationPassR := writeStr s.eeprom.stationPassR s.stationPassword
      , gasF := EFloat.val s.gasThreshold
      , tempF := EFloat.val s.tempThreshold
      , autoB := if s.autoMode then 1 else 0 } }

/-- loadSettings (lines 446-487): read the credential strings (empty AP
password falls back to the default), the two validated thresholds, and the
auto-mode flag (byte equal to 1). -/
def loadSettings (s : GasState) : GasState :=
  let ap := loadStr s.eeprom.apPassR
  { s with
      apPassword := if ap.length = 0 then AP_PASSWORD_BYTES else ap
    , stationSSID := loadStr s.eeprom.stationSSIDR
    , stationPassword := loadStr s.eeprom.stationPassR
    , gasThreshold := validateGas s.eeprom.gasF
    , tempThreshold := validateTemp s.eeprom.tempF
    , autoMode := s.eeprom.autoB = 1 }

/-- Raw button levels and clock value entering one handleButtons call
(lines 560-562): true means the pin reads LOW (pressed). -/
structure BtnInput where
  menuButton : Bool
  b2 : Bool
  b3 : Bool
  millis : Nat

/-- Unsigned 32-bit subtraction, the arithmetic of
millis() - lastButtonDebounceTime on a 32-bit unsigned long. -/
def sub32 (a b : Nat) : Nat :=
  (a % 4294967296 + 4294967296 - b % 4294967296) % 4294967296

/-- Mode-button action (lines 572-582): from the main screen enter the
main menu at position 0, from anywhere else return to the main screen. -/
def modeAction (s : GasState) : GasState :=
  if s.currentMenu = MenuState.MAIN_SCREEN then
    { s with currentMenu := MenuState.MENU_MAIN, menuPosition := 0 }
  else
    { s with currentMenu := MenuState.MAIN_SCREEN }

/-- Up-button action (lines 587-611). In WIFI_SETTINGS the sketch toggles
apMode and then calls setupAccessPoint (which re-asserts apMode = true) or
setupStation (which never sets apMode back to true), so the net state
effect is the toggle. -/
def upAction (s : GasState) : GasState :=
  match s.currentMenu with
  | MenuState.SET_TEMP_THRESHOLD => { s with tempThreshold := s.tempThreshold + 1 }
  | MenuState.SET_GAS_THRESHOLD => { s with gasThreshold := s.gasThreshold + 10 }
  | MenuState.WIFI_SETTINGS => { s with apMode := !s.apMode }
  | MenuState.MENU_MAIN =>
      { s with menuPosition := (s.menuPosition - 1 + 4).tmod 4 }
  | _ => s

/-- Down-button action (lines 616-666), reached only outside the main
screen. In MENU_MAIN it enters the submenu selected by the cursor; in the
two threshold screens the source decrements the OTHER threshold
(lines 634-646); in WIFI_SETTINGS it toggles apMode; otherwise it
advances the cursor. -/
def downAction (s : GasState) : GasState :=
  match s.currentMenu with
  | MenuState.MENU_MAIN =>
      if s.menuPosition = 0 then
        { s with currentMenu := MenuState.SET_TEMP_THRESHOLD }
      else if s.menuPosition = 1 then
        { s with currentMenu := MenuState.SET_GAS_THRESHOLD }
      else if s.menuPosition = 2 then
        { s with currentMenu := MenuState.WIFI_SETTINGS }
      else if s.menuPosition = 3 then
        { s with currentMenu := MenuState.DEVICE_INFO }
      else s
  | MenuState.SET_TEMP_THRESHOLD => { s with gasThreshold := s.gasThreshold - 10 }
  | MenuState.SET_GAS_THRESHOLD => { s with tempThreshold := s.tempThreshold - 1 }
  | MenuState.WIFI_SETTINGS => { s with apMode := !s.apMode }
  | _ => { s with menuPosition := (s.menuPosition + 1).tmod 4 }

/-- handleButtons (lines 558-674): debounce-reset on any level change,
then, once 50 ms of stable levels have elapsed, fire each button whose
debounced state changed, and record the raw levels. navigateMenu and
updateLCD only render. -/
def handleButtons (i : BtnInput) (s : GasState) : GasState :=
  let s1 :=
    if i.menuButton ≠ s.menuButtonLastState ∨ i.b2 ≠ s.button2LastState ∨
        i.b3 ≠ s.button3LastState then
      { s with lastButtonDebounceTime := i.millis }
    else s
  let s2 :=
    if sub32 i.millis s1.lastButtonDebounceTime > 50 then
      let sA :=
        if i.menuButton ≠ s1.menuButtonState then
          let sa := { s1 with menuButtonState := i.menuButton }
          if i.menuButton then modeAction sa else sa
        else s1
      let sB :=
        if i.b2 ≠ sA.button2State then
          let sb := { sA with button2State := i.b2 }
          if i.b2 then upAction sb else sb
        else sA
      if i.b3 ≠ sB.button3State then
        let sc := { sB with button3State := i.b3 }
        if i.b3 ∧ sc.currentMenu ≠ MenuState.MAIN_SCREEN then downAction sc
        else sc
      else sB
    else s1
  { s2 with menuButtonLastState := i.menuButton
          , button2LastState := i.b2
          , button3LastState := i.b3 }

/-- A call of handleButtons that registers exactly an Up press edge: all
raw levels match the recorded last levels (so the debounce timer is not
reset), the debounce window has elapsed, the Up level is pressed while its
debounced state is still released, and the other two debounced states
already match their levels. -/
def upEdge (i : BtnInput) (s : GasState) : Prop :=
  i.menuButton = s.menuButtonLastState ∧ i.menuButton = s.menuButtonState ∧
  i.b2 = true ∧ s.button2LastState = true ∧ s.button2State = false ∧
  i.b3 = s.button3LastState ∧ i.b3 = s.button3State ∧
  sub32 i.millis s.lastButtonDebounceTime > 50

/-- A call of handleButtons that registers exactly a Down press edge. -/
def downEdge (i : BtnInput) (s : GasState) : Prop :=
  i.menuButton = s.menuButtonLastState ∧ i.menuButton = s.menuButtonState ∧
  i.b2 = s.button2LastState ∧ i.b2 = s.button2State ∧
  i.b3 = true ∧ s.button3LastState = true ∧ s.button3State = false ∧
  sub32 i.millis s.lastButtonDebounceTime > 50

end GasMonitor

namespace SmartSwitch

/-- Global state of the smart switch sketch (smart switch/src/main.cpp,
lines 19-22); relayPin mirrors digitalWrite on the relay pin. -/
structure SwState where
  relayState : Bool
  autoMode : Bool
  pirDetected : Bool
  relayPin : Bool

/-- handleToggle (lines 112-119): flip the relay, but only in manual
mode. The HTTP redirect changes no state. -/
def handleToggle (s : SwState) : SwState :=
  if !s.autoMode then
    { s with relayState := !s.relayState, relayPin := !s.relayState }
  else s

/-- handleSetMode (lines 122-140): the auto argument, when present and
equal to "true", enters auto mode and clears the PIR flag; when equal to
"false", it leaves auto mode and forces the relay off; any other value
changes nothing. -/
def handleSetMode (autoArg : Option String) (s : SwState) : SwState :=
  match autoArg with
  | none => s
  | some v =>
      if v = "true" then { s with autoMode := true, pirDetected := false }
      else if v = "false" then
        { s with autoMode := false, relayState := false, relayPin := false }
      else s

end SmartSwitch

namespace GasMonitor

/-- Region of all zero bytes, a blank EEPROM area. -/
def zeroRegion : Nat → Nat := fun _ => 0

/-- Concrete EEPROM contents used as a test fixture. -/
def baseEeprom : Eeprom :=
  { apPassR := zeroRegion
  , stationSSIDR := zeroRegion
  , stationPassR := zeroRegion
  , gasF := EFloat.val 500
  , tempF := EFloat.val 35
  , autoB := 1 }

/-- Concrete quiescent state used as a test fixture: defaults of the
sketch, idle buttons, readings below both thresholds. -/
def baseState : GasState :=
  { temperature := 25
  , humidity := 40
  , gasLevel := 100
  , alarmActive := false
  , relayState := false
  , autoMode := true
  , gasThreshold := 500
  , tempThreshold := 35
  , alarmPin := false
  , relayPin := false
  , currentMenu := MenuState.MAIN_SCREEN
  , menuPosition := 0
  , menuButtonState := false
  , button2State := false
  , button3State := false
  , menuButtonLastState := false
  , button2LastState := false
  , button3LastState := false
  , lastButtonDebounceTime := 0
  , apMode := true
  , apPassword := AP_PASSWORD_BYTES
  , stationSSID := []
  , stationPassword := []
  , eeprom := baseEeprom }

/-- Concrete valid sensor reading used as a test fixture. -/
def r0 : Reading :=
  { newTemperature := EFloat.val 20, newHumidity := EFloat.val 40, gasRaw := 100 }

lemma readSensors_alarmActive (r : Reading) (s : GasState) :
    (readSensors r s).alarmActive = s.alarmActive := by
  rcases r with ⟨nt, nh, g⟩
  cases nt <;> cases nh <;> rfl

lemma checkAlarms_of_active (s : GasState) (h : s.alarmActive = true) :
    checkAlarms s = s := by
  unfold checkAlarms
  simp [h]

lemma cycle_alarmActive (r : Reading) (s : GasState) (h : s.alarmActive = true) :
    (cycle r s).alarmActive = true := by
  unfold cycle
  rw [checkAlarms_of_active _ (by rw [readSensors_alarmActive]; exact h)]
  rw [readSensors_alarmActive]
  exact h

lemma runCycles_alarmActive (rs : List Reading) :
    ∀ s : GasState, s.alarmActive = true → (runCycles rs s).alarmActive = true := by
  induction rs with
  | nil => intro s h; exact h
  | cons r tl ih =>
      intro s h
      exact ih (cycle r s) (cycle_alarmActive r s h)

/-- C1: once alarmActive is true it stays true through every subsequent
sensor-read/checkAlarms cycle, however the readings move; among the
external commands, only reset with alarm:true can make it false, and that
command also drives the alarm output low. -/
theorem alarm_latched_until_reset (s : GasState) (rs : List Reading) (c : Cmd)
    (h : s.alarmActive = true) :
    (runCycles rs s).alarmActive = true ∧
    ((handleCommand c s).alarmActive = false → c = Cmd.reset (some true)) ∧
    (handleCommand (Cmd.reset (some true)) s).alarmActive = false ∧
    (handleCommand (Cmd.reset (some true)) s).alarmPin = false := by
  refine ⟨runCycles_alarmActive rs s h, ?_, by simp [handleCommand], by simp [handleCommand]⟩
  intro hfalse
  cases c with
  | getStatus => simp [handleCommand, h] at hfalse
  | setRelay st => cases st <;> simp [handleCommand, h] at hfalse
  | setAutoMode st => cases st <;> simp [handleCommand, h] at hfalse
  | setThresholds g t =>
      cases g <;> cases t <;> simp [handleCommand, h] at hfalse
  | reset al =>
      by_cases hal : al = some true
      · rw [hal]
      · simp [handleCommand, hal, h] at hfalse

/-- C1 witness: a concrete latched state stays latched through a cycle and
is cleared by the reset command. -/
theorem alarm_latched_until_reset_witness :
    ({ baseState with alarmActive := true, alarmPin := true } : GasState).alarmActive = true ∧
    (runCycles [r0] { baseState with alarmActive := true, alarmPin := true }).alarmActive = true ∧
    (handleCommand (Cmd.reset (some true))
      { baseState with alarmActive := true, alarmPin := true }).alarmActive = false := by
  refine ⟨rfl, ?_, ?_⟩
  · exact (alarm_latched_until_reset
      { baseState with alarmActive := true, alarmPin := true } [r0] Cmd.getStatus rfl).1
  · exact (alarm_latched_until_reset
      { baseState with alarmActive := true, alarmPin := true } [r0] Cmd.getStatus rfl).2.2.1

/-- C2: with the alarm inactive and a threshold exceeded, checkAlarms
latches the alarm and asserts the alarm output, energising the relay
exactly when autoMode holds; with the alarm already active or no
threshold exceeded, it changes nothing. -/
theorem checkAlarms_transition (s : GasState) :
    (s.alarmActive = false →
      (s.gasLevel > s.gasThreshold ∨ s.temperature > s.tempThreshold) →
      (checkAlarms s).alarmActive = true ∧
      (checkAlarms s).alarmPin = true ∧
      (s.autoMode = true →
        (checkAlarms s).relayState = true ∧ (checkAlarms s).relayPin = true) ∧
      (s.autoMode = false →
        (checkAlarms s).relayState = s.relayState ∧
        (checkAlarms s).relayPin = s.relayPin) ∧
      (checkAlarms s).gasThreshold = s.gasThreshold ∧
      (checkAlarms s).tempThreshold = s.tempThreshold ∧
      (checkAlarms s).autoMode = s.autoMode ∧
      (checkAlarms s).eeprom = s.eeprom) ∧
    ((s.alarmActive = true ∨
        (s.gasLevel ≤ s.gasThreshold ∧ s.temperature ≤ s.tempThreshold)) →
      checkAlarms s = s) := by
  constructor
  · intro ha htrig
    by_cases hm : s.autoMode <;> simp [checkAlarms, ha, hm, htrig]
  · intro hcase
    rcases hcase with ha | ⟨hg, ht⟩
    · exact checkAlarms_of_active s ha
    · unfold checkAlarms
      simp [not_lt.mpr hg, not_lt.mpr ht]

/-- C2 witness: a concrete gas excursion latches the alarm and relay in
auto mode, and the quiescent fixture is left untouched. -/
theorem checkAlarms_transition_witness :
    (({ baseState with gasLevel := 600 } : GasState).alarmActive = false ∧
      ((600 : ℚ) > 500 ∨ (25 : ℚ) > 35) ∧
      (checkAlarms { baseState with gasLevel := 600 }).alarmActive = true ∧
      (checkAlarms { baseState with gasLevel := 600 }).relayState = true) ∧
    (checkAlarms baseState = baseState) := by
  have h1 := (checkAlarms_transition { baseState with gasLevel := 600 }).1
    rfl (Or.inl (by norm_num [baseState]))
  have h2 := (checkAlarms_transition baseState).2
    (Or.inr ⟨by norm_num [baseState], by norm_num [baseState]⟩)
  exact ⟨⟨rfl, Or.inl (by norm_num), h1.1, (h1.2.2.1 rfl).1⟩, h2⟩

lemma validateGas_mem (e : EFloat) : 0 ≤ validateGas e ∧ validateGas e ≤ 4095 := by
  cases e with
  | nan => norm_num [validateGas]
  | val q =>
      by_cases h : q < 0 ∨ q > 4095
      · simp only [validateGas, if_pos h]
        norm_num
      · have h2 := h
        push_neg at h2
        simp only [validateGas, h, if_false, ite_false, if_neg h]
        exact ⟨h2.1, h2.2⟩

lemma validateTemp_mem (e : EFloat) : 0 ≤ validateTemp e ∧ validateTemp e ≤ 100 := by
  cases e with
  | nan => norm_num [validateTemp]
  | val q =>
      by_cases h : q < 0 ∨ q > 100
      · simp only [validateTemp, if_pos h]
        norm_num
      · have h2 := h
        push_neg at h2
        simp only [validateTemp, h, if_false, ite_false, if_neg h]
        exact ⟨h2.1, h2.2⟩

/-- C3: loadSettings always yields thresholds inside the legal ranges,
substitutes the defaults 500 and 35 exactly for NaN or out-of-range
stored values, and each loaded threshold depends only on its own stored
cell. -/
theorem loadSettings_validates (s : GasState) :
    0 ≤ (loadSettings s).gasThreshold ∧ (loadSettings s).gasThreshold ≤ 4095 ∧
    0 ≤ (loadSettings s).tempThreshold ∧ (loadSettings s).tempThreshold ≤ 100 ∧
    ((s.eeprom.gasF = EFloat.nan ∨
        (∃ q, s.eeprom.gasF = EFloat.val q ∧ (q < 0 ∨ q > 4095))) →
      (loadSettings s).gasThreshold = 500) ∧
    ((s.eeprom.tempF = EFloat.nan ∨
        (∃ q, s.eeprom.tempF = EFloat.val q ∧ (q < 0 ∨ q > 100))) →
      (loadSettings s).tempThreshold = 35) ∧
    (∀ s2 : GasState, s2.eeprom.gasF = s.eeprom.gasF →
      (loadSettings s2).gasThreshold = (loadSettings s).gasThreshold) ∧
    (∀ s2 : GasState, s2.eeprom.tempF = s.eeprom.tempF →
      (loadSettings s2).tempThreshold = (loadSettings s).tempThreshold) := by
  have hg : (loadSettings s).gasThreshold = validateGas s.eeprom.gasF := rfl
  have ht : (loadSettings s).tempThreshold = validateTemp s.eeprom.tempF := rfl
  refine ⟨hg ▸ (validateGas_mem _).1, hg ▸ (validateGas_mem _).2,
    ht ▸ (validateTemp_mem _).1, ht ▸ (validateTemp_mem _).2, ?_, ?_, ?_, ?_⟩
  · intro hbad
    rw [hg]
    rcases hbad with hnan | ⟨q, hq, hout⟩
    · rw [hnan]; rfl
    · rw [hq]
      simp [validateGas, hout]
  · intro hbad
    rw [ht]
    rcases hbad with hnan | ⟨q, hq, hout⟩
    · rw [hnan]; rfl
    · rw [hq]
      simp [validateTemp, hout]
  · intro s2 heq
    have hg2 : (loadSettings s2).gasThreshold = validateGas s2.eeprom.gasF := rfl
    rw [hg, hg2, heq]
  · intro s2 heq
    have ht2 : (loadSettings s2).tempThreshold = validateTemp s2.eeprom.tempF := rfl
    rw [ht, ht2, heq]

/-- C3 witness: the stored value 5000 (above the maximum 4095) loads as
the default 500, stored NaN temperature loads as 35, and the gas result
is unchanged when only unrelated cells differ. -/
theorem loadSettings_validates_witness :
    (loadSettings { baseState with eeprom :=
        { baseEeprom with gasF := EFloat.val 5000 } }).gasThreshold = 500 ∧
    (loadSettings { baseState with eeprom :=
        { baseEeprom with tempF := EFloat.nan } }).tempThreshold = 35 ∧
    (loadSettings { baseState with eeprom :=
        { baseEeprom with tempF := EFloat.nan } }).gasThreshold =
      (loadSettings baseState).gasThreshold := by
  refine ⟨?_, ?_, ?_⟩
  · exact (loadSettings_validates _).2.2.2.2.1
      (Or.inr ⟨5000, rfl, Or.inr (by norm_num)⟩)
  · exact (loadSettings_validates _).2.2.2.2.2.1 (Or.inl rfl)
  · exact (loadSettings_validates baseState).2.2.2.2.2.2.1 _ rfl

/-- C4: saving and then loading returns exactly the stored gas threshold,
temperature threshold and auto-mode flag whenever the thresholds are in
their legal ranges. -/
theorem save_load_roundtrip (s : GasState)
    (h1 : 0 ≤ s.gasThreshold) (h2 : s.gasThreshold ≤ 4095)
    (h3 : 0 ≤ s.tempThreshold) (h4 : s.tempThreshold ≤ 100) :
    (loadSettings (saveSettings s)).gasThreshold = s.gasThreshold ∧
    (loadSettings (saveSettings s)).tempThreshold = s.tempThreshold ∧
    (loadSettings (saveSettings s)).autoMode = s.autoMode := by
  refine ⟨?_, ?_, ?_⟩
  · have hrw : (loadSettings (saveSettings s)).gasThreshold =
        validateGas (EFloat.val s.gasThreshold) := rfl
    have hno : ¬(s.gasThreshold < 0 ∨ s.gasThreshold > 4095) := by
      push_neg
      exact ⟨h1, h2⟩
    rw [hrw]
    simp [validateGas, hno]
  · have hrw : (loadSettings (saveSettings s)).tempThreshold =
        validateTemp (EFloat.val s.tempThreshold) := rfl
    have hno : ¬(s.tempThreshold < 0 ∨ s.tempThreshold > 100) := by
      push_neg
      exact ⟨h3, h4⟩
    rw [hrw]
    simp [validateTemp, hno]
  · have : (loadSettings (saveSettings s)).autoMode =
        decide ((if s.autoMode then 1 else 0) = 1) := rfl
    rw [this]
    cases hm : s.autoMode <;> simp

/-- C4 witness: a concrete in-range configuration (gas 600, temperature
40, manual mode) survives the save/load round trip. -/
theorem save_load_roundtrip_witness :
    (0 : ℚ) ≤ 600 ∧ (600 : ℚ) ≤ 4095 ∧ (0 : ℚ) ≤ 40 ∧ (40 : ℚ) ≤ 100 ∧
    (loadSettings (saveSettings { baseState with
        gasThreshold := 600, tempThreshold := 40, autoMode := false })).gasThreshold = 600 ∧
    (loadSettings (saveSettings { baseState with
        gasThreshold := 600, tempThreshold := 40, autoMode := false })).autoMode = false := by
  have h := save_load_roundtrip
    { baseState with gasThreshold := 600, tempThreshold := 40, autoMode := false }
    (by norm_num [baseState]) (by norm_num [baseState])
    (by norm_num [baseState]) (by norm_num [baseState])
  exact ⟨by norm_num, by norm_num, by norm_num, by norm_num, h.1, h.2.2⟩

end GasMonitor

namespace GasMonitor

/-- C8: a setThresholds command carrying only a gas value updates the
in-memory gas threshold and its persisted cell while leaving the
temperature threshold untouched in memory and in storage, and
symmetrically for a temp-only command. -/
theorem setThresholds_partial_update (s : GasState) (g t : ℚ) :
    ((handleCommand (Cmd.setThresholds (some g) none) s).gasThreshold = g ∧
     (handleCommand (Cmd.setThresholds (some g) none) s).eeprom.gasF = EFloat.val g ∧
     (handleCommand (Cmd.setThresholds (some g) none) s).tempThreshold = s.tempThreshold ∧
     (handleCommand (Cmd.setThresholds (some g) none) s).eeprom.tempF = s.eeprom.tempF) ∧
    ((handleCommand (Cmd.setThresholds none (some t)) s).tempThreshold = t ∧
     (handleCommand (Cmd.setThresholds none (some t)) s).eeprom.tempF = EFloat.val t ∧
     (handleCommand (Cmd.setThresholds none (some t)) s).gasThreshold = s.gasThreshold ∧
     (handleCommand (Cmd.setThresholds none (some t)) s).eeprom.gasF = s.eeprom.gasF) := by
  exact ⟨⟨rfl, rfl, rfl, rfl⟩, ⟨rfl, rfl, rfl, rfl⟩⟩

/-- C9 counterexample: with autoMode true, a setRelay command still
changes relayState (here from true to false), so the command is not
ignored in auto mode as the claim states. -/
theorem setRelay_honored_in_auto_mode :
    ({ baseState with relayState := true, relayPin := true } : GasState).autoMode = true ∧
    ({ baseState with relayState := true, relayPin := true } : GasState).relayState = true ∧
    (handleCommand (Cmd.setRelay (some false))
      { baseState with relayState := true, relayPin := true }).relayState = false := by
  exact ⟨rfl, rfl, rfl⟩

/-- C9 amended: a setRelay command with a state field sets relayState and
the relay output unconditionally, in auto mode as well as manual mode
(autoMode itself is untouched); the /api/control relay parameter is
likewise applied unconditionally under its string parsing. -/
theorem setRelay_unconditional (s : GasState) (b : Bool) (v : List Nat) :
    (handleCommand (Cmd.setRelay (some b)) s).relayState = b ∧
    (handleCommand (Cmd.setRelay (some b)) s).relayPin = b ∧
    (handleCommand (Cmd.setRelay (some b)) s).autoMode = s.autoMode ∧
    (handleCommand (Cmd.setRelay (some b)) s).alarmActive = s.alarmActive ∧
    (handleCommand (Cmd.setRelay (some b)) s).eeprom = s.eeprom ∧
    (apiControl (some v) none none none s).relayState =
      (v = [49] || v = [116, 114, 117, 101] || v = [111, 110]) := by
  exact ⟨rfl, rfl, rfl, rfl, rfl, rfl⟩

end GasMonitor

namespace SmartSwitch

/-- C10: a setmode request with auto=false leaves auto mode and
unconditionally forces the relay off; auto=true enters auto mode and
clears pirDetected without touching the relay; toggle flips the relay
exactly in manual mode and is a no-op in auto mode. -/
theorem setMode_toggle_spec (s : SwState) :
    (handleSetMode (some "false") s).autoMode = false ∧
    (handleSetMode (some "false") s).relayState = false ∧
    (handleSetMode (some "false") s).relayPin = false ∧
    (handleSetMode (some "true") s).autoMode = true ∧
    (handleSetMode (some "true") s).pirDetected = false ∧
    (handleSetMode (some "true") s).relayState = s.relayState ∧
    (handleSetMode (some "true") s).relayPin = s.relayPin ∧
    (s.autoMode = false →
      (handleToggle s).relayState = !s.relayState ∧
      (handleToggle s).relayPin = !s.relayState) ∧
    (s.autoMode = true → handleToggle s = s) := by
  refine ⟨?_, ?_, ?_, ?_, ?_, ?_, ?_, ?_, ?_⟩
  · simp [handleSetMode]
  · simp [handleSetMode]
  · simp [handleSetMode]
  · simp [handleSetMode]
  · simp [handleSetMode]
  · simp [handleSetMode]
  · simp [handleSetMode]
  · intro h
    simp [handleToggle, h]
  · intro h
    simp [handleToggle, h]

/-- C10 witness: the concrete all-off manual state toggles its relay on,
and the same state in auto mode ignores toggle and is forced off by
setmode auto=false. -/
theorem setMode_toggle_spec_witness :
    (handleToggle
      { relayState := false, autoMode := false, pirDetected := false
      , relayPin := false }).relayState = true ∧
    (handleToggle
      { relayState := false, autoMode := true, pirDetected := false
      , relayPin := false }) =
      { relayState := false, autoMode := true, pirDetected := false
      , relayPin := false } ∧
    (handleSetMode (some "false")
      { relayState := true, autoMode := true, pirDetected := true
      , relayPin := true }).relayState = false := by
  refine ⟨?_, ?_, ?_⟩
  · have h := (setMode_toggle_spec
      { relayState := false, autoMode := false, pirDetected := false
      , relayPin := false }).2.2.2.2.2.2.2.1 rfl
    simpa using h.1
  · exact (setMode_toggle_spec
      { relayState := false, autoMode := true, pirDetected := false
      , relayPin := false }).2.2.2.2.2.2.2.2 rfl
  · exact (setMode_toggle_spec
      { relayState := true, autoMode := true, pirDetected := true
      , relayPin := true }).2.1

end SmartSwitch

namespace GasMonitor

lemma upAction_button3State (s : GasState) :
    (upAction s).button3State = s.button3State := by
  cases h : s.currentMenu <;> simp [upAction, h]

lemma modeAction_eeprom (s : GasState) : (modeAction s).eeprom = s.eeprom := by
  unfold modeAction
  split <;> rfl

lemma upAction_eeprom (s : GasState) : (upAction s).eeprom = s.eeprom := by
  cases h : s.currentMenu <;> simp [upAction, h]

lemma downAction_eeprom (s : GasState) : (downAction s).eeprom = s.eeprom := by
  cases h : s.currentMenu <;> simp [downAction, h, apply_ite GasState.eeprom]

lemma handleButtons_upEdge (i : BtnInput) (s : GasState) (h : upEdge i s) :
    handleButtons i s =
      { upAction { s with button2State := true } with
          menuButtonLastState := i.menuButton
        , button2LastState := i.b2
        , button3LastState := i.b3 } := by
  obtain ⟨h1, h2, h3, h4, h5, h6, h7, h8⟩ := h
  have h12 : s.menuButtonLastState = s.menuButtonState := h1.symm.trans h2
  have h67 : s.button3LastState = s.button3State := h6.symm.trans h7
  simp [handleButtons, upAction_button3State, h1, h3, h4, h5, h6, h8, h12, h67]

lemma handleButtons_downEdge (i : BtnInput) (s : GasState) (h : downEdge i s)
    (hms : s.currentMenu ≠ MenuState.MAIN_SCREEN) :
    handleButtons i s =
      { downAction { s with button3State := true } with
          menuButtonLastState := i.menuButton
        , button2LastState := i.b2
        , button3LastState := i.b3 } := by
  obtain ⟨h1, h2, h3, h4, h5, h6, h7, h8⟩ := h
  have h12 : s.menuButtonLastState = s.menuButtonState := h1.symm.trans h2
  have h34 : s.button2LastState = s.button2State := h3.symm.trans h4
  simp [handleButtons, h1, h3, h5, h6, h7, h8, h12, h34, hms]

/-- C5: in MENU_MAIN with cursor p in [0, 4), an Up edge keeps the state
in MENU_MAIN and moves the cursor to (p - 1 + 4) mod 4, while a Down edge
enters the submenu selected by p (0 temperature, 1 gas, 2 wifi,
3 device info). -/
theorem menuMain_navigation (i : BtnInput) (s : GasState)
    (hmenu : s.currentMenu = MenuState.MENU_MAIN)
    (hp0 : 0 ≤ s.menuPosition) (hp4 : s.menuPosition < 4) :
    (upEdge i s →
      (handleButtons i s).currentMenu = MenuState.MENU_MAIN ∧
      (handleButtons i s).menuPosition = (s.menuPosition - 1 + 4) % 4) ∧
    (downEdge i s →
      (handleButtons i s).menuPosition = s.menuPosition ∧
      (s.menuPosition = 0 →
        (handleButtons i s).currentMenu = MenuState.SET_TEMP_THRESHOLD) ∧
      (s.menuPosition = 1 →
        (handleButtons i s).currentMenu = MenuState.SET_GAS_THRESHOLD) ∧
      (s.menuPosition = 2 →
        (handleButtons i s).currentMenu = MenuState.WIFI_SETTINGS) ∧
      (s.menuPosition = 3 →
        (handleButtons i s).currentMenu = MenuState.DEVICE_INFO)) := by
  constructor
  · intro h
    rw [handleButtons_upEdge i s h]
    refine ⟨by simp [upAction, hmenu], ?_⟩
    have hv : (upAction { s with button2State := true }).menuPosition =
        (s.menuPosition - 1 + 4).tmod 4 := by
      simp [upAction, hmenu]
    simp only [hv]
    exact Int.tmod_eq_emod (by omega) (by norm_num)
  · intro h
    have hms : s.currentMenu ≠ MenuState.MAIN_SCREEN := by
      rw [hmenu]
      intro hx
      cases hx
    rw [handleButtons_downEdge i s h hms]
    refine ⟨?_, ?_, ?_, ?_, ?_⟩
    · simp [downAction, hmenu]
      split_ifs <;> rfl
    · intro hp
      simp [downAction, hmenu, hp]
    · intro hp
      simp [downAction, hmenu, hp]
    · intro hp
      simp [downAction, hmenu, hp]
    · intro hp
      simp [downAction, hmenu, hp]

/-- Concrete input levels registering an Up press edge. -/
def upInput : BtnInput := { menuButton := false, b2 := true, b3 := false, millis := 1000 }

/-- Concrete input levels registering a Down press edge. -/
def downInput : BtnInput := { menuButton := false, b2 := false, b3 := true, millis := 1000 }

/-- Fixture in MENU_MAIN at cursor 0, ready for an Up edge. -/
def menuState0 : GasState :=
  { baseState with currentMenu := MenuState.MENU_MAIN, button2LastState := true }

/-- Fixture in MENU_MAIN at cursor 3, ready for an Up edge. -/
def menuState3 : GasState :=
  { baseState with currentMenu := MenuState.MENU_MAIN, menuPosition := 3, button2LastState := true }

/-- Fixture in MENU_MAIN at cursor 2, ready for a Down edge. -/
def menuState2d : GasState :=
  { baseState with currentMenu := MenuState.MENU_MAIN, menuPosition := 2, button3LastState := true }

/-- C5 witness: Up from cursor 0 lands on 3, Up from cursor 3 lands on 2,
and Down at cursor 2 enters the wifi settings submenu. -/
theorem menuMain_navigation_witness :
    (handleButtons upInput menuState0).menuPosition = 3 ∧
    (handleButtons upInput menuState3).menuPosition = 2 ∧
    (handleButtons downInput menuState2d).currentMenu = MenuState.WIFI_SETTINGS := by
  have e0 : upEdge upInput menuState0 :=
    ⟨rfl, rfl, rfl, rfl, rfl, rfl, rfl, by decide⟩
  have e3 : upEdge upInput menuState3 :=
    ⟨rfl, rfl, rfl, rfl, rfl, rfl, rfl, by decide⟩
  have e2 : downEdge downInput menuState2d :=
    ⟨rfl, rfl, rfl, rfl, rfl, rfl, rfl, by decide⟩
  have h0 := (menuMain_navigation upInput menuState0 rfl (by decide) (by decide)).1 e0
  have h3 := (menuMain_navigation upInput menuState3 rfl (by decide) (by decide)).1 e3
  have h2 := (menuMain_navigation downInput menuState2d rfl (by decide) (by decide)).2 e2
  exact ⟨h0.2.trans (by decide), h3.2.trans (by decide), h2.2.2.2.1 rfl⟩

/-- Fixture editing the temperature threshold, ready for a Down edge. -/
def tempEditState : GasState :=
  { baseState with currentMenu := MenuState.SET_TEMP_THRESHOLD, button3LastState := true }

/-- Fixture editing the gas threshold, ready for a Down edge. -/
def gasEditState : GasState :=
  { baseState with currentMenu := MenuState.SET_GAS_THRESHOLD, button3LastState := true }

/-- C6: the source cross-wires the Down handlers (lines 634-646): a Down
edge while editing the temperature threshold leaves tempThreshold at 35
and lowers gasThreshold from 500 to 490, and a Down edge while editing
the gas threshold leaves gasThreshold at 500 and lowers tempThreshold
from 35 to 34 — contradicting the on-screen hints the sketch itself
prints (UP: +1 DOWN: -1 and UP: +10 DOWN: -10). -/
theorem threshold_menus_cross_wired :
    ((handleButtons downInput tempEditState).tempThreshold = 35 ∧
     (handleButtons downInput tempEditState).gasThreshold = 490) ∧
    ((handleButtons downInput gasEditState).gasThreshold = 500 ∧
     (handleButtons downInput gasEditState).tempThreshold = 34) := by
  have e1 : downEdge downInput tempEditState :=
    ⟨rfl, rfl, rfl, rfl, rfl, rfl, rfl, by decide⟩
  have e2 : downEdge downInput gasEditState :=
    ⟨rfl, rfl, rfl, rfl, rfl, rfl, rfl, by decide⟩
  have hm1 : tempEditState.currentMenu ≠ MenuState.MAIN_SCREEN := by
    simp [tempEditState, baseState]
  have hm2 : gasEditState.currentMenu ≠ MenuState.MAIN_SCREEN := by
    simp [gasEditState, baseState]
  rw [handleButtons_downEdge downInput tempEditState e1 hm1,
    handleButtons_downEdge downInput gasEditState e2 hm2]
  refine ⟨⟨?_, ?_⟩, ?_, ?_⟩ <;>
    norm_num [downAction, tempEditState, gasEditState, baseState]

end GasMonitor

namespace GasMonitor

/-- Fixture editing the temperature threshold, ready for an Up edge. -/
def tempEditUpState : GasState :=
  { baseState with currentMenu := MenuState.SET_TEMP_THRESHOLD, button2LastState := true }

/-- C7 counterexample: a concrete Up edge in the temperature submenu
raises the in-memory threshold from 35 to 36 while the persisted cell
still holds 35 when the handler returns, so the persisted value does not
equal the in-memory value. -/
theorem button_edit_not_persisted :
    (handleButtons upInput tempEditUpState).tempThreshold = 36 ∧
    (handleButtons upInput tempEditUpState).eeprom.tempF = EFloat.val 35 ∧
    EFloat.val (35 : ℚ) ≠ EFloat.val (36 : ℚ) := by
  have e : upEdge upInput tempEditUpState :=
    ⟨rfl, rfl, rfl, rfl, rfl, rfl, rfl, by decide⟩
  rw [handleButtons_upEdge upInput _ e]
  refine ⟨?_, ?_, by simp⟩ <;>
    norm_num [upAction, tempEditUpState, baseState, baseEeprom]

lemma sub32_self (a : Nat) : sub32 a a = 0 := by
  unfold sub32
  rw [Nat.add_sub_cancel_left]

/-- C7 amended: handleButtons never writes to persisted storage — after
any call, including Up/Down threshold edits, the EEPROM contents are
exactly what they were before, so button edits are not persisted at
all. -/
theorem handleButtons_preserves_eeprom (i : BtnInput) (s : GasState) :
    (handleButtons i s).eeprom = s.eeprom := by
  simp only [handleButtons]
  simp [apply_ite GasState.eeprom, modeAction_eeprom, upAction_eeprom,
    downAction_eeprom]

end GasMonitor
